import Mathlib

/-!
Shallow embedding of `src/main.py` (ADK Agent Gateway, FastAPI).

The gateway resolves an agent name in a static registry, creates a session
with the target (time-derived session id), forwards the caller's message to
the target's `/run` endpoint, and extracts the final textual answer from the
returned list of turn events.  Network effects are modelled by an explicit
`World` oracle giving the outcome of each outbound call, and the outbound
calls actually issued are collected in a trace.
-/

set_option autoImplicit false

namespace Gateway

/-- JSON-like Python values, as produced by `response.json()` and handled by
the duck-typed parsing code in `run_agent_session`. -/
inductive PyVal where
  | none
  | bool (b : Bool)
  | int (n : Int)
  | str (s : String)
  | list (xs : List PyVal)
  | dict (kvs : List (String × PyVal))

/-- First-match association lookup; Python dicts have unique keys, so the
represented states have no duplicate keys and first-match agrees with
Python's `dict.__getitem__` / `dict.get`. -/
def assocLookup {α : Type} (kvs : List (String × α)) (k : String) : Option α :=
  (kvs.find? (fun kv => kv.1 == k)).map (fun kv => kv.2)

/-- Python `dict.get(k)` on a `PyVal`, returning `Option.none` when the value
is not a dict or lacks the key (the caller decides whether non-dicts raise). -/
def PyVal.getKey : PyVal → String → Option PyVal
  | .dict kvs, k => assocLookup kvs k
  | _, _ => Option.none

/-- Python truthiness of a JSON-like value. -/
def PyVal.truthy : PyVal → Bool
  | .none => false
  | .bool b => b
  | .int n => n != 0
  | .str s => !s.data.isEmpty
  | .list xs => !xs.isEmpty
  | .dict kvs => !kvs.isEmpty

/-- Python `isinstance(v, dict)`. -/
def PyVal.isDict : PyVal → Bool
  | .dict _ => true
  | _ => false

/-- Python `"k" in v` for a dict `v`. -/
def PyVal.hasKey (v : PyVal) (k : String) : Bool :=
  (v.getKey k).isSome

/-- Exceptions that the embedded code can raise: `httpx.HTTPStatusError`
(carrying the upstream status and body text), an httpx timeout, and any
other exception rendered by `str(e)`. -/
inductive PyExc where
  | httpStatusError (status : Nat) (text : String)
  | timeout (msg : String)
  | exn (msg : String)

/-- Python `parts[0]`: list indexing, string indexing (yielding a one-char
string), and a raised `TypeError`/`KeyError` for non-sequences. -/
def pyIndex0 : PyVal → Except PyExc PyVal
  | .list (x :: _) => .ok x
  | .list [] => .error (.exn "IndexError: list index out of range")
  | .str s =>
      match s.data with
      | c :: _ => .ok (.str (String.mk [c]))
      | [] => .error (.exn "IndexError: string index out of range")
  | .dict _ => .error (.exn "KeyError: 0")
  | _ => .error (.exn "TypeError: object is not subscriptable")

/-- Python `content.get("role") == "model"`: only a string value compares
equal to the string literal. -/
def isModelRole : Option PyVal → Bool
  | some (.str r) => r == "model"
  | _ => false

/-- The sentinel that `run_agent_session` initialises `final_response` to
(src/main.py line 104). -/
def sentinel : String := "Agent did not provide a final text response."

/-- One iteration of the event loop in `run_agent_session`
(src/main.py lines 107-119): given the current `final_response` and the next
event, either overwrite it with the event's first part's text, keep it, or
raise (duck typing: `event.get` on a non-dict raises `AttributeError`;
`parts[0]` on a truthy non-sequence raises). -/
def extractStep (final : PyVal) (event : PyVal) : Except PyExc PyVal :=
  match event with
  | .dict ekvs =>
      let c := (assocLookup ekvs "content").getD .none
      if c.truthy && c.isDict && isModelRole (c.getKey "role") && c.hasKey "parts" then
        let parts := match c.getKey "parts" with
          | some v => v
          | Option.none => .list []
        if parts.truthy then
          match pyIndex0 parts with
          | .error e => .error e
          | .ok p0 =>
              if p0.isDict && p0.hasKey "text" then
                .ok ((p0.getKey "text").getD .none)
              else
                .ok final
        else
          .ok final
      else
        .ok final
  | _ => .error (.exn "AttributeError: object has no attribute get")

/-- The event loop of `run_agent_session`, folding `extractStep` over the
events in original order, propagating any raised exception. -/
def extractFold (events : List PyVal) (final : PyVal) : Except PyExc PyVal :=
  match events with
  | [] => .ok final
  | e :: es =>
      match extractStep final e with
      | .ok f => extractFold es f
      | .error ex => .error ex

/-- The parsing logic of `run_agent_session` (src/main.py lines 102-121):
start from the sentinel and scan all events. -/
def extractFinal (events : List PyVal) : Except PyExc PyVal :=
  extractFold events (.str sentinel)

/-- Eligibility of an event, the four conditions of the code: the event's
content is a dict whose role equals "model", it has a parts sequence whose
first element is a dict carrying a "text" key. -/
def eligible (event : PyVal) : Bool :=
  match event with
  | .dict ekvs =>
      match assocLookup ekvs "content" with
      | some (.dict ckvs) =>
          isModelRole (assocLookup ckvs "role") &&
          (match assocLookup ckvs "parts" with
           | some (.list (p :: _)) =>
               (match p with
                | .dict pkvs => (assocLookup pkvs "text").isSome
                | _ => false)
           | _ => false)
      | _ => false
  | _ => false

/-- The text value carried by an eligible event's first part (meaningful
when `eligible` holds). -/
def eligText (event : PyVal) : PyVal :=
  match event with
  | .dict ekvs =>
      match assocLookup ekvs "content" with
      | some (.dict ckvs) =>
          match assocLookup ckvs "parts" with
          | some (.list (p :: _)) => (p.getKey "text").getD .none
          | _ => .none
      | _ => .none
  | _ => .none

/-- Events on which `extractStep` does not raise: dicts whose parts value,
when the content gates pass and it is truthy, is an indexable sequence.
Every value conforming to the spec's TurnEvent data model satisfies this. -/
def stepSafe (event : PyVal) : Bool :=
  match event with
  | .dict ekvs =>
      let c := (assocLookup ekvs "content").getD .none
      if c.truthy && c.isDict && isModelRole (c.getKey "role") && c.hasKey "parts" then
        match c.getKey "parts" with
        | some (.list _) => true
        | some (.str _) => true
        | some v => !v.truthy
        | Option.none => true
      else
        true
  | _ => false

/-- Event constructor matching the turn-event shape of the spec:
`{content: {role: r, parts: ps}}`. -/
def mkEvent (role : String) (parts : List PyVal) : PyVal :=
  .dict [("content", .dict [("role", .str role), ("parts", .list parts)])]

/-- Text part constructor: `{text: s}`. -/
def mkTextPart (s : String) : PyVal :=
  .dict [("text", .str s)]

/-! ### The gateway endpoint (src/main.py lines 12-79) -/

/-- `AgentRequest` (src/main.py lines 13-17): the inbound request body; the
session identifier is optional. -/
structure AgentRequest where
  agent_name : String
  message : String
  user_id : String
  session_id : Option String

/-- `AgentResponse` (src/main.py lines 19-23). -/
structure AgentResponse where
  response : String
  session_id : String
  agent_name : String
  status : String

/-- `AGENT_REGISTRY` (src/main.py lines 26-31): static mapping from agent
name to base URL. -/
def AGENT_REGISTRY : List (String × String) :=
  [("greeting_agent", "http://localhost:8000"),
   ("jarvis_agent", "http://localhost:8000"),
   ("calc_agent", "http://localhost:8000")]

/-- Possible outcome of one outbound HTTP POST, supplied by the environment:
a response (with status code, body text, and parsed JSON body), a timeout of
the client (httpx timeout exception, rendered by `str(e)` as `msg`), or any
other transport-level exception. -/
inductive Outcome where
  | resp (status : Nat) (text : String) (json : PyVal)
  | timeout (msg : String)
  | connError (msg : String)

/-- The environment of one inbound request: the wall-clock reading
`int(time.time())` at session creation, and the outcomes of the two
outbound calls. -/
structure World where
  now : Nat
  createOutcome : Outcome
  runOutcome : Outcome

/-- An outbound call issued by the gateway. -/
inductive Call where
  | createSession (url : String)
  | run (url : String) (payload : PyVal)

/-- Status codes that `httpx.Response.raise_for_status` does not raise on. -/
def isSuccessStatus (status : Nat) : Bool :=
  200 ≤ status && status < 300

/-- The session id generated at src/main.py line 71:
`f"session-{int(time.time())}"`. -/
def sessionIdOf (now : Nat) : String :=
  "session-" ++ toString now

/-- The URL of the create-session POST (src/main.py line 74). -/
def sessionUrl (agent_url app_name user_id session_id : String) : String :=
  agent_url ++ "/apps/" ++ app_name ++ "/users/" ++ user_id ++ "/sessions/" ++ session_id

/-- `create_session` (src/main.py lines 69-79): generate a time-derived
session id, POST to the target, raise for a non-success status or timeout,
and return the generated id.  The second component is the trace of outbound
calls issued. -/
def create_session (w : World) (agent_url : String) (user_id : String)
    (app_name : String) : Except PyExc String × List Call :=
  let session_id := sessionIdOf w.now
  let call := Call.createSession (sessionUrl agent_url app_name user_id session_id)
  match w.createOutcome with
  | .resp status text _ =>
      if isSuccessStatus status then
        (.ok session_id, [call])
      else
        (.error (.httpStatusError status text), [call])
  | .timeout msg => (.error (.timeout msg), [call])
  | .connError msg => (.error (.exn msg), [call])

/-- The JSON payload of the run POST (src/main.py lines 87-95). -/
def runPayload (app_name user_id session_id message : String) : PyVal :=
  .dict [("app_name", .str app_name),
         ("user_id", .str user_id),
         ("session_id", .str session_id),
         ("new_message", .dict [("role", .str "user"),
                                ("parts", .list [mkTextPart message])])]

/-- Python `for event in events` over an arbitrary JSON value: lists iterate
their elements, dicts their keys, strings their characters; other values
raise `TypeError`. -/
def pyIter : PyVal → Except PyExc (List PyVal)
  | .list xs => .ok xs
  | .dict kvs => .ok (kvs.map (fun kv => .str kv.1))
  | .str s => .ok (s.data.map (fun c => .str (String.mk [c])))
  | _ => .error (.exn "TypeError: object is not iterable")

/-- `run_agent_session` (src/main.py lines 81-121): POST the message to the
target's `/run` endpoint, raise for non-success or timeout, then run the
extraction loop over the returned event list. -/
def run_agent_session (w : World) (agent_url : String) (message : String)
    (user_id : String) (app_name : String) (session_id : String) :
    Except PyExc PyVal × List Call :=
  let call := Call.run (agent_url ++ "/run")
    (runPayload app_name user_id session_id message)
  match w.runOutcome with
  | .resp status text json =>
      if isSuccessStatus status then
        (match pyIter json with
         | .ok events => extractFinal events
         | .error e => .error e, [call])
      else
        (.error (.httpStatusError status text), [call])
  | .timeout msg => (.error (.timeout msg), [call])
  | .connError msg => (.error (.exn msg), [call])

/-- The caller-visible result of the endpoint: a success body or an
`HTTPException` with a status code and a detail string. -/
inductive GatewayResult where
  | ok (resp : AgentResponse)
  | httpError (status : Nat) (detail : String)

/-- The two `except` clauses of `run_agent` (src/main.py lines 61-66):
`httpx.HTTPStatusError` becomes an `HTTPException` passing through the
upstream status and body; every other exception (timeouts included) becomes
a 500 whose detail is `str(e)`. -/
def handleExc : PyExc → GatewayResult
  | .httpStatusError status text =>
      .httpError status ("Error from ADK server: " ++ text)
  | .timeout msg => .httpError 500 msg
  | .exn msg => .httpError 500 msg

/-- `run_agent` (src/main.py lines 34-66): registry lookup, session
creation, run, and response assembly; a non-string extracted value fails
pydantic validation of `AgentResponse.response` and lands in the generic
500 handler. -/
def run_agent (w : World) (req : AgentRequest) : GatewayResult × List Call :=
  match assocLookup AGENT_REGISTRY req.agent_name with
  | Option.none =>
      (.httpError 404 ("Agent '" ++ req.agent_name ++ "' not found"), [])
  | some agent_url =>
      match create_session w agent_url req.user_id req.agent_name with
      | (.error e, calls) => (handleExc e, calls)
      | (.ok session_id, calls1) =>
          match run_agent_session w agent_url req.message req.user_id
              req.agent_name session_id with
          | (.error e, calls2) => (handleExc e, calls1 ++ calls2)
          | (.ok v, calls2) =>
              match v with
              | .str s =>
                  (.ok ⟨s, session_id, req.agent_name, "success"⟩,
                   calls1 ++ calls2)
              | _ =>
                  (.httpError 500 "1 validation error for AgentResponse",
                   calls1 ++ calls2)

/-! ### Concrete demonstration values -/

/-- A successful environment: clock reading 7, create-session succeeds, and
the run call returns three events whose last model event says "B". -/
def demoWorld : World :=
  ⟨7, Outcome.resp 200 "" (PyVal.list []),
   Outcome.resp 200 "OK"
     (PyVal.list [mkEvent "user" [mkTextPart "hi"],
                  mkEvent "model" [mkTextPart "A"],
                  mkEvent "model" [mkTextPart "B"]])⟩

/-- An environment whose create-session call returns a 500 with body
"boom". -/
def demoCreateFailWorld : World :=
  ⟨5, Outcome.resp 500 "boom" PyVal.none, Outcome.resp 200 "" (PyVal.list [])⟩

/-- An environment whose create-session call times out. -/
def demoTimeoutWorld : World :=
  ⟨3, Outcome.timeout "timed out", Outcome.resp 200 "" (PyVal.list [])⟩

/-- An environment whose create-session call raises a generic transport
fault rendered exactly like the timeout. -/
def demoConnErrorWorld : World :=
  ⟨3, Outcome.connError "timed out", Outcome.resp 200 "" (PyVal.list [])⟩

/-- A second successful environment with the same clock reading as
`demoWorld` but different outcomes. -/
def demoWorld2 : World :=
  ⟨7, Outcome.resp 201 "x" PyVal.none, Outcome.timeout "t"⟩

/-- An inbound request for a registered agent. -/
def demoRequest : AgentRequest :=
  ⟨"greeting_agent", "hi", "u1", some "caller-supplied-session"⟩

/-- An inbound request for an unregistered agent. -/
def demoMissRequest : AgentRequest :=
  ⟨"unknown_agent", "hi", "u1", Option.none⟩

/-! ### Extraction lemmas -/

theorem extractStep_safe (f e : PyVal) (hs : stepSafe e = true) :
    extractStep f e = .ok (if eligible e then eligText e else f) := by
  cases e with
  | none => simp [stepSafe] at hs
  | bool b => simp [stepSafe] at hs
  | int n => simp [stepSafe] at hs
  | str s => simp [stepSafe] at hs
  | list xs => simp [stepSafe] at hs
  | dict ekvs =>
      rcases hc : assocLookup ekvs "content" with _ | c
      · simp [extractStep, eligible, hc, PyVal.truthy]
      · cases c with
        | none => simp [extractStep, eligible, hc, PyVal.truthy]
        | bool b => simp [extractStep, eligible, hc, PyVal.isDict]
        | int n => simp [extractStep, eligible, hc, PyVal.isDict]
        | str s => simp [extractStep, eligible, hc, PyVal.isDict]
        | list xs => simp [extractStep, eligible, hc, PyVal.isDict]
        | dict ckvs =>
            cases hrole : isModelRole (assocLookup ckvs "role") with
            | false =>
                simp [extractStep, eligible, hc, hrole, PyVal.getKey]
            | true =>
                cases ckvs with
                | nil => simp [assocLookup, isModelRole] at hrole
                | cons kv ckvs0 =>
                    rcases hp : assocLookup (kv :: ckvs0) "parts" with _ | v
                    · simp [extractStep, eligible, hc, hrole, hp,
                        PyVal.getKey, PyVal.hasKey]
                    · cases v with
                      | list ps =>
                          cases ps with
                          | nil =>
                              simp [extractStep, eligible, hc, hrole, hp,
                                PyVal.getKey, PyVal.hasKey, PyVal.truthy,
                                PyVal.isDict]
                          | cons p ps0 =>
                              cases p with
                              | dict pkvs =>
                                  cases ht : (assocLookup pkvs "text").isSome with
                                  | false =>
                                      simp [extractStep, eligible, eligText, hc,
                                        hrole, hp, ht, PyVal.getKey, PyVal.hasKey,
                                        PyVal.truthy, PyVal.isDict, pyIndex0]
                                  | true =>
                                      simp [extractStep, eligible, eligText, hc,
                                        hrole, hp, ht, PyVal.getKey, PyVal.hasKey,
                                        PyVal.truthy, PyVal.isDict, pyIndex0]
                              | none =>
                                  simp [extractStep, eligible, hc, hrole, hp,
                                    PyVal.getKey, PyVal.hasKey, PyVal.truthy,
                                    PyVal.isDict, pyIndex0]
                              | bool b =>
                                  simp [extractStep, eligible, hc, hrole, hp,
                                    PyVal.getKey, PyVal.hasKey, PyVal.truthy,
                                    PyVal.isDict, pyIndex0]
                              | int n =>
                                  simp [extractStep, eligible, hc, hrole, hp,
                                    PyVal.getKey, PyVal.hasKey, PyVal.truthy,
                                    PyVal.isDict, pyIndex0]
                              | str s =>
                                  simp [extractStep, eligible, hc, hrole, hp,
                                    PyVal.getKey, PyVal.hasKey, PyVal.truthy,
                                    PyVal.isDict, pyIndex0]
                              | list xs =>
                                  simp [extractStep, eligible, hc, hrole, hp,
                                    PyVal.getKey, PyVal.hasKey, PyVal.truthy,
                                    PyVal.isDict, pyIndex0]
                      | str s =>
                          cases hd : s.data with
                          | nil =>
                              simp [extractStep, eligible, hc, hrole, hp,
                                PyVal.getKey, PyVal.hasKey, PyVal.truthy, hd]
                          | cons a as =>
                              simp [extractStep, eligible, hc, hrole, hp,
                                PyVal.getKey, PyVal.hasKey, PyVal.truthy,
                                PyVal.isDict, pyIndex0, hd]
                      | none =>
                          simp [extractStep, eligible, hc, hrole, hp,
                            PyVal.getKey, PyVal.hasKey, PyVal.truthy]
                      | bool b =>
                          simp [stepSafe, hc, hrole, hp, PyVal.getKey,
                            PyVal.hasKey, PyVal.truthy, PyVal.isDict] at hs
                          simp [extractStep, eligible, hc, hrole, hp,
                            PyVal.getKey, PyVal.hasKey, PyVal.truthy, hs]
                      | int n =>
                          simp [stepSafe, hc, hrole, hp, PyVal.getKey,
                            PyVal.hasKey, PyVal.truthy, PyVal.isDict] at hs
                          simp [extractStep, eligible, hc, hrole, hp,
                            PyVal.getKey, PyVal.hasKey, PyVal.truthy, hs]
                      | dict dkvs =>
                          simp [stepSafe, hc, hrole, hp, PyVal.getKey,
                            PyVal.hasKey, PyVal.truthy, PyVal.isDict] at hs
                          simp [extractStep, eligible, hc, hrole, hp,
                            PyVal.getKey, PyVal.hasKey, PyVal.truthy, hs]

theorem extractFold_safe (events : List PyVal) (f : PyVal)
    (h : ∀ e ∈ events, stepSafe e = true) :
    extractFold events f =
      .ok (events.foldl (fun acc e => if eligible e then eligText e else acc) f) := by
  induction events generalizing f with
  | nil => rfl
  | cons e es ih =>
      have he := h e (by simp)
      simp only [extractFold, extractStep_safe f e he, List.foldl_cons]
      exact ih _ (fun x hx => h x (by simp [hx]))

theorem foldl_no_eligible (es : List PyVal) (f : PyVal)
    (h : ∀ e ∈ es, eligible e = false) :
    es.foldl (fun acc e => if eligible e then eligText e else acc) f = f := by
  induction es generalizing f with
  | nil => rfl
  | cons e es ih =>
      rw [List.foldl_cons, if_neg (by simp [h e (by simp)])]
      exact ih f (fun x hx => h x (by simp [hx]))

theorem foldl_last_eligible (es : List PyVal) (f : PyVal) (t : PyVal)
    (hl : (es.filter (fun e => eligible e)).getLast? = some t) :
    es.foldl (fun acc e => if eligible e then eligText e else acc) f = eligText t := by
  induction es generalizing f with
  | nil => simp at hl
  | cons e es ih =>
      by_cases heb : eligible e = true
      · rw [List.filter_cons_of_pos heb] at hl
        rw [List.foldl_cons, if_pos heb]
        rcases hfe : es.filter (fun e => eligible e) with _ | ⟨x, xs⟩
        · rw [hfe, List.getLast?_singleton] at hl
          have ht : t = e := by injection hl with h1; exact h1.symm
          subst ht
          exact foldl_no_eligible es (eligText t)
            (fun x hx => by
              have := (List.filter_eq_nil_iff.mp hfe) x hx
              simpa using this)
        · rw [hfe, List.getLast?_cons_cons] at hl
          exact ih _ (by rw [hfe]; exact hl)
      · rw [List.filter_cons_of_neg (by simpa using heb)] at hl
        rw [List.foldl_cons, if_neg heb]
        exact ih _ hl

theorem extractFinal_eq_last (events : List PyVal) (t : PyVal)
    (hsafe : ∀ e ∈ events, stepSafe e = true)
    (hl : (events.filter (fun e => eligible e)).getLast? = some t) :
    extractFinal events = .ok (eligText t) := by
  rw [extractFinal, extractFold_safe events _ hsafe,
    foldl_last_eligible events _ t hl]

theorem extractFinal_eq_sentinel (events : List PyVal)
    (hsafe : ∀ e ∈ events, stepSafe e = true)
    (hne : ∀ e ∈ events, eligible e = false) :
    extractFinal events = .ok (.str sentinel) := by
  rw [extractFinal, extractFold_safe events _ hsafe,
    foldl_no_eligible events _ hne]

theorem extractStep_mkEvent_model (f p0 : PyVal) (rest : List PyVal) :
    extractStep f (mkEvent "model" (p0 :: rest)) =
      if p0.isDict && p0.hasKey "text" then
        .ok ((p0.getKey "text").getD .none)
      else
        .ok f := rfl

theorem extractFold_tail_irrelevant (pre post rest rest' : List PyVal)
    (p0 f : PyVal) :
    extractFold (pre ++ mkEvent "model" (p0 :: rest) :: post) f =
    extractFold (pre ++ mkEvent "model" (p0 :: rest') :: post) f := by
  induction pre generalizing f with
  | nil =>
      simp only [List.nil_append, extractFold, extractStep_mkEvent_model]
  | cons x xs ih =>
      simp only [List.cons_append, extractFold]
      cases extractStep f x with
      | error e => rfl
      | ok g => exact ih g

/-! ### Gateway lemmas -/

theorem create_session_fst_ok (w : World) (url uid app sid : String)
    (h : (create_session w url uid app).1 = .ok sid) :
    sid = sessionIdOf w.now := by
  unfold create_session at h
  cases hco : w.createOutcome with
  | resp status text json =>
      rw [hco] at h
      dsimp only at h
      by_cases hs : isSuccessStatus status = true
      · rw [if_pos hs] at h
        injection h with h1
        exact h1.symm
      · rw [if_neg hs] at h
        simp at h
  | timeout msg => rw [hco] at h; dsimp only at h; simp at h
  | connError msg => rw [hco] at h; dsimp only at h; simp at h

theorem create_session_error_trace (w : World) (url uid app : String)
    (e : PyExc) (calls : List Call)
    (h : create_session w url uid app = (.error e, calls)) :
    calls = [Call.createSession (sessionUrl url app uid (sessionIdOf w.now))] := by
  unfold create_session at h
  cases hco : w.createOutcome with
  | resp status text json =>
      rw [hco] at h
      dsimp only at h
      by_cases hs : isSuccessStatus status = true
      · rw [if_pos hs] at h; simp at h
      · rw [if_neg hs] at h
        injection h with h1 h2
        exact h2.symm
  | timeout msg => rw [hco] at h; dsimp only at h; injection h with h1 h2; exact h2.symm
  | connError msg => rw [hco] at h; dsimp only at h; injection h with h1 h2; exact h2.symm

theorem create_session_ok_trace (w : World) (url uid app sid : String)
    (calls : List Call)
    (h : create_session w url uid app = (.ok sid, calls)) :
    calls = [Call.createSession (sessionUrl url app uid (sessionIdOf w.now))] := by
  unfold create_session at h
  cases hco : w.createOutcome with
  | resp status text json =>
      rw [hco] at h
      dsimp only at h
      by_cases hs : isSuccessStatus status = true
      · rw [if_pos hs] at h
        injection h with h1 h2
        exact h2.symm
      · rw [if_neg hs] at h; simp at h
  | timeout msg => rw [hco] at h; dsimp only at h; simp at h
  | connError msg => rw [hco] at h; dsimp only at h; simp at h

theorem run_agent_session_ok (w : World) (url msg uid app sid : String)
    (v : PyVal) (calls : List Call)
    (h : run_agent_session w url msg uid app sid = (.ok v, calls)) :
    ∃ status text json events,
      w.runOutcome = .resp status text json ∧
      isSuccessStatus status = true ∧
      pyIter json = .ok events ∧
      extractFinal events = .ok v := by
  unfold run_agent_session at h
  cases hro : w.runOutcome with
  | resp status text json =>
      rw [hro] at h
      dsimp only at h
      by_cases hs : isSuccessStatus status = true
      · rw [if_pos hs] at h
        cases hpi : pyIter json with
        | ok events =>
            rw [hpi] at h
            injection h with h1 h2
            exact ⟨status, text, json, events, rfl, hs, hpi, h1⟩
        | error e => rw [hpi] at h; simp at h
      · rw [if_neg hs] at h; simp at h
  | timeout m => rw [hro] at h; dsimp only at h; simp at h
  | connError m => rw [hro] at h; dsimp only at h; simp at h

theorem run_agent_trace_head (w : World) (req : AgentRequest) (url : String)
    (hurl : assocLookup AGENT_REGISTRY req.agent_name = some url) :
    ∃ rest, (run_agent w req).2 =
      Call.createSession
        (sessionUrl url req.agent_name req.user_id (sessionIdOf w.now)) :: rest := by
  simp only [run_agent, hurl]
  rcases hcs : create_session w url req.user_id req.agent_name with ⟨res, calls⟩
  cases res with
  | error e =>
      have := create_session_error_trace w url req.user_id req.agent_name e calls hcs
      subst this
      exact ⟨[], rfl⟩
  | ok sid =>
      have := create_session_ok_trace w url req.user_id req.agent_name sid calls hcs
      subst this
      dsimp only
      rcases hrs : run_agent_session w url req.message req.user_id req.agent_name sid
        with ⟨res2, calls2⟩
      cases res2 with
      | error e => exact ⟨calls2, rfl⟩
      | ok v => cases v <;> exact ⟨calls2, rfl⟩

/-! ### Claims about the response extractor -/

/-- C1: for every event sequence (of exception-free events) containing at
least one eligible event — eligible meaning the event's content is an object
with role "model", a parts sequence, and a first part that is an object
carrying a text field — `extractFinal` returns the text of the first part of
the last eligible event in original order, regardless of how many ineligible
events are interspersed. -/
theorem extractFinal_returns_last_eligible (events : List PyVal) (t : PyVal)
    (hsafe : ∀ e ∈ events, stepSafe e = true)
    (hl : (events.filter (fun e => eligible e)).getLast? = some t) :
    extractFinal events = .ok (eligText t) :=
  extractFinal_eq_last events t hsafe hl

theorem extractFinal_returns_last_eligible_witness :
    extractFinal [mkEvent "user" [mkTextPart "hi"],
                  mkEvent "model" [mkTextPart "A"],
                  PyVal.dict [],
                  mkEvent "model" [mkTextPart "B"]] =
      .ok (PyVal.str "B") :=
  extractFinal_returns_last_eligible
    [mkEvent "user" [mkTextPart "hi"], mkEvent "model" [mkTextPart "A"],
     PyVal.dict [], mkEvent "model" [mkTextPart "B"]]
    (mkEvent "model" [mkTextPart "B"]) (by decide) (by rfl)

/-- C2 counterexample: on an event sequence with no eligible event (here the
empty one) the code returns its sentinel, whose value is "Agent did not
provide a final text response.", not the string "no response produced"
quoted by the claim. -/
theorem sentinel_string_counterexample :
    extractFinal [] = .ok (.str "Agent did not provide a final text response.") ∧
    sentinel ≠ "no response produced" :=
  ⟨rfl, by decide⟩

/-- C2 (amended): for every event sequence (of exception-free events) in
which no event satisfies all four eligibility conditions, `extractFinal`
returns the fixed sentinel string — whose value in the code is "Agent did
not provide a final text response." — unchanged. -/
theorem extractFinal_sentinel_when_no_eligible (events : List PyVal)
    (hsafe : ∀ e ∈ events, stepSafe e = true)
    (hne : ∀ e ∈ events, eligible e = false) :
    extractFinal events = .ok (.str sentinel) :=
  extractFinal_eq_sentinel events hsafe hne

theorem extractFinal_sentinel_when_no_eligible_witness :
    extractFinal [mkEvent "user" [mkTextPart "hi"], mkEvent "model" []] =
      .ok (.str sentinel) :=
  extractFinal_sentinel_when_no_eligible
    [mkEvent "user" [mkTextPart "hi"], mkEvent "model" []]
    (by decide) (by decide)

/-- C3: only the first element of an eligible event's parts sequence is ever
inspected — replacing all parts after the first by anything whatsoever, in
any event of the sequence, leaves the result of `extractFinal` unchanged, so
the text of a second-or-later part is never returned. -/
theorem extractFinal_ignores_later_parts (pre post rest rest' : List PyVal)
    (p0 : PyVal) :
    extractFinal (pre ++ mkEvent "model" (p0 :: rest) :: post) =
    extractFinal (pre ++ mkEvent "model" (p0 :: rest') :: post) :=
  extractFold_tail_irrelevant pre post rest rest' p0 (.str sentinel)

/-- C10: eligibility does not require the text to be non-empty — when the
last eligible event's first part carries the empty string, `extractFinal`
returns the empty string, which differs from the sentinel, so the sentinel
is observed only when zero events are eligible. -/
theorem empty_text_overrides_sentinel (events : List PyVal) (t : PyVal)
    (hsafe : ∀ e ∈ events, stepSafe e = true)
    (hl : (events.filter (fun e => eligible e)).getLast? = some t)
    (ht : eligText t = .str "") :
    extractFinal events = .ok (.str "") ∧ sentinel ≠ "" := by
  refine ⟨?_, by decide⟩
  rw [extractFinal_eq_last events t hsafe hl, ht]

theorem empty_text_overrides_sentinel_witness :
    extractFinal [mkEvent "model" [mkTextPart "A"],
                  mkEvent "model" [mkTextPart ""]] =
      .ok (.str "") ∧ sentinel ≠ "" :=
  empty_text_overrides_sentinel
    [mkEvent "model" [mkTextPart "A"], mkEvent "model" [mkTextPart ""]]
    (mkEvent "model" [mkTextPart ""]) (by decide) (by rfl) (by rfl)

/-! ### Claims about the gateway endpoint -/

/-- C4: for every inbound request whose agent name is absent from the
registry, `run_agent` fails with status 404 (NotFound) and issues zero
outbound calls. -/
theorem registry_miss_404_no_calls (w : World) (req : AgentRequest)
    (h : assocLookup AGENT_REGISTRY req.agent_name = Option.none) :
    run_agent w req =
      (.httpError 404 ("Agent '" ++ req.agent_name ++ "' not found"), []) := by
  unfold run_agent
  rw [h]

theorem registry_miss_404_no_calls_witness :
    run_agent demoWorld demoMissRequest =
      (.httpError 404 ("Agent '" ++ demoMissRequest.agent_name ++ "' not found"),
       []) :=
  registry_miss_404_no_calls demoWorld demoMissRequest (by decide)

/-- C5: for every inbound request with a registry hit whose create-session
call returns a non-success status, `run_agent` fails with that upstream
status, its detail carrying the upstream body verbatim, and the run call is
never issued. -/
theorem create_failure_passthrough (w : World) (req : AgentRequest)
    (url : String) (status : Nat) (text : String) (json : PyVal)
    (hurl : assocLookup AGENT_REGISTRY req.agent_name = some url)
    (hout : w.createOutcome = Outcome.resp status text json)
    (hbad : isSuccessStatus status = false) :
    (run_agent w req).1 =
      .httpError status ("Error from ADK server: " ++ text) ∧
    ∀ u p, Call.run u p ∉ (run_agent w req).2 := by
  have hcs : create_session w url req.user_id req.agent_name =
      (.error (.httpStatusError status text),
       [Call.createSession
          (sessionUrl url req.agent_name req.user_id (sessionIdOf w.now))]) := by
    unfold create_session
    rw [hout]
    dsimp only
    rw [if_neg (by rw [hbad]; exact Bool.false_ne_true)]
  simp only [run_agent, hurl, hcs]
  refine ⟨rfl, ?_⟩
  intro u p hmem
  simp [handleExc] at hmem

theorem create_failure_passthrough_witness :
    (run_agent demoCreateFailWorld demoRequest).1 =
      .httpError 500 ("Error from ADK server: " ++ "boom") ∧
    ∀ u p, Call.run u p ∉ (run_agent demoCreateFailWorld demoRequest).2 :=
  create_failure_passthrough demoCreateFailWorld demoRequest
    "http://localhost:8000" 500 "boom" PyVal.none
    (by decide) (by rfl) (by decide)

/-- C6 counterexample: a timed-out create-session call and a generic
transport fault with the same rendered message produce identical
caller-visible results — both land in the generic handler as a 500 — so the
timeout is not surfaced as a category distinct from InternalError. -/
theorem timeout_not_distinct_counterexample :
    run_agent demoTimeoutWorld demoRequest =
      run_agent demoConnErrorWorld demoRequest ∧
    (run_agent demoTimeoutWorld demoRequest).1 =
      .httpError 500 "timed out" :=
  ⟨rfl, rfl⟩

/-- C6 (amended): when an outbound call (session creation or run) times out,
the failure surfaces to the caller through the generic exception handler as
HTTP status 500 with detail `str(e)` — the same category used for
InternalError — not as a distinct UpstreamTimeout category. -/
theorem timeout_surfaces_as_500 (w : World) (req : AgentRequest)
    (url msg : String)
    (hurl : assocLookup AGENT_REGISTRY req.agent_name = some url) :
    (w.createOutcome = Outcome.timeout msg →
      (run_agent w req).1 = .httpError 500 msg) ∧
    (∀ status text json, w.createOutcome = Outcome.resp status text json →
      isSuccessStatus status = true → w.runOutcome = Outcome.timeout msg →
      (run_agent w req).1 = .httpError 500 msg) := by
  constructor
  · intro hco
    have hcs : create_session w url req.user_id req.agent_name =
        (.error (.timeout msg),
         [Call.createSession
            (sessionUrl url req.agent_name req.user_id (sessionIdOf w.now))]) := by
      unfold create_session
      rw [hco]
    simp only [run_agent, hurl, hcs]
    rfl
  · intro status text json hco hsucc hro
    have hcs : create_session w url req.user_id req.agent_name =
        (.ok (sessionIdOf w.now),
         [Call.createSession
            (sessionUrl url req.agent_name req.user_id (sessionIdOf w.now))]) := by
      unfold create_session
      rw [hco]
      dsimp only
      rw [if_pos hsucc]
    have hrs : run_agent_session w url req.message req.user_id req.agent_name
        (sessionIdOf w.now) =
        (.error (.timeout msg),
         [Call.run (url ++ "/run")
            (runPayload req.agent_name req.user_id (sessionIdOf w.now)
              req.message)]) := by
      unfold run_agent_session
      rw [hro]
    simp only [run_agent, hurl, hcs, hrs]
    rfl

theorem timeout_surfaces_as_500_witness :
    (run_agent demoTimeoutWorld demoRequest).1 =
      .httpError 500 "timed out" :=
  (timeout_surfaces_as_500 demoTimeoutWorld demoRequest
    "http://localhost:8000" "timed out" (by decide)).1 rfl

/-- C7: two inbound requests identical except for the caller-supplied
session identifier produce identical behaviour (same result, same outbound
calls); the supplied identifier is never used, and on every registry hit a
session-create call with a freshly generated time-derived id is issued. -/
theorem caller_session_id_ignored (w : World) (r1 r2 : AgentRequest)
    (hn : r1.agent_name = r2.agent_name) (hm : r1.message = r2.message)
    (hu : r1.user_id = r2.user_id) :
    run_agent w r1 = run_agent w r2 ∧
    ∀ url, assocLookup AGENT_REGISTRY r1.agent_name = some url →
      Call.createSession
          (sessionUrl url r1.agent_name r1.user_id (sessionIdOf w.now))
        ∈ (run_agent w r1).2 := by
  constructor
  · obtain ⟨a1, m1, u1, s1⟩ := r1
    obtain ⟨a2, m2, u2, s2⟩ := r2
    dsimp only at hn hm hu
    subst hn; subst hm; subst hu
    rfl
  · intro url hurl
    obtain ⟨rest, hr⟩ := run_agent_trace_head w r1 url hurl
    rw [hr]
    exact List.mem_cons_self _ _

theorem caller_session_id_ignored_witness :
    run_agent demoWorld demoRequest =
      run_agent demoWorld ⟨"greeting_agent", "hi", "u1", Option.none⟩ ∧
    ∀ url, assocLookup AGENT_REGISTRY demoRequest.agent_name = some url →
      Call.createSession
          (sessionUrl url demoRequest.agent_name demoRequest.user_id
            (sessionIdOf demoWorld.now))
        ∈ (run_agent demoWorld demoRequest).2 :=
  caller_session_id_ignored demoWorld demoRequest
    ⟨"greeting_agent", "hi", "u1", Option.none⟩ rfl rfl rfl

/-- C8: the session id returned by `create_session` is a pure function of
the whole-second clock reading — it equals `"session-" ++ toString now` —
so two calls observing the same second yield the same id, whatever their
caller, service, or target address. -/
theorem session_id_pure_function_of_clock (w w' : World)
    (url uid app url' uid' app' sid sid' : String)
    (h : (create_session w url uid app).1 = .ok sid)
    (h' : (create_session w' url' uid' app').1 = .ok sid')
    (hnow : w.now = w'.now) :
    sid = sessionIdOf w.now ∧ sid = sid' := by
  have e1 := create_session_fst_ok w url uid app sid h
  have e2 := create_session_fst_ok w' url' uid' app' sid' h'
  exact ⟨e1, by rw [e1, e2, sessionIdOf, sessionIdOf, hnow]⟩

theorem session_id_pure_function_of_clock_witness :
    "session-7" = sessionIdOf demoWorld.now ∧ "session-7" = "session-7" :=
  session_id_pure_function_of_clock demoWorld demoWorld2
    "http://localhost:8000" "u1" "greeting_agent"
    "http://elsewhere:9000" "u2" "calc_agent"
    "session-7" "session-7" (by rfl) (by rfl) (by rfl)

/-- C9: every successful response of `run_agent` consists of exactly the
final answer extracted by the event-scanning loop from the run call's body,
the session id generated for this request from the clock, the requested
agent name echoed back, and the literal status "success". -/
theorem success_response_fields (w : World) (req : AgentRequest)
    (r : AgentResponse) (tr : List Call)
    (h : run_agent w req = (.ok r, tr)) :
    r.agent_name = req.agent_name ∧ r.status = "success" ∧
    r.session_id = sessionIdOf w.now ∧
    ∃ status text json events,
      w.runOutcome = Outcome.resp status text json ∧
      pyIter json = .ok events ∧
      extractFinal events = .ok (.str r.response) := by
  unfold run_agent at h
  cases hurl : assocLookup AGENT_REGISTRY req.agent_name with
  | none => rw [hurl] at h; simp at h
  | some url =>
      rw [hurl] at h
      dsimp only at h
      rcases hcs : create_session w url req.user_id req.agent_name
        with ⟨res, calls1⟩
      rw [hcs] at h
      cases res with
      | error e => cases e <;> simp [handleExc] at h
      | ok sid =>
          dsimp only at h
          rcases hrs : run_agent_session w url req.message req.user_id
              req.agent_name sid with ⟨res2, calls2⟩
          rw [hrs] at h
          cases res2 with
          | error e => cases e <;> simp [handleExc] at h
          | ok v =>
              cases v with
              | str s =>
                  dsimp only at h
                  injection h with h1 h2
                  injection h1 with h3
                  subst h3
                  have hsid : sid = sessionIdOf w.now :=
                    create_session_fst_ok w url req.user_id req.agent_name sid
                      (by rw [hcs])
                  obtain ⟨st, tx, js, evs, hro, hsc, hpi, hex⟩ :=
                    run_agent_session_ok w url req.message req.user_id
                      req.agent_name sid (.str s) calls2 hrs
                  exact ⟨rfl, rfl, hsid, st, tx, js, evs, hro, hpi, hex⟩
              | none => dsimp only at h; simp at h
              | bool b => dsimp only at h; simp at h
              | int n => dsimp only at h; simp at h
              | list xs => dsimp only at h; simp at h
              | dict kvs => dsimp only at h; simp at h

theorem success_response_fields_witness :
    (AgentResponse.mk "B" "session-7" "greeting_agent" "success").agent_name =
        demoRequest.agent_name ∧
    (AgentResponse.mk "B" "session-7" "greeting_agent" "success").status =
        "success" ∧
    (AgentResponse.mk "B" "session-7" "greeting_agent" "success").session_id =
        sessionIdOf demoWorld.now ∧
    ∃ status text json events,
      demoWorld.runOutcome = Outcome.resp status text json ∧
      pyIter json = .ok events ∧
      extractFinal events =
        .ok (.str (AgentResponse.mk "B" "session-7" "greeting_agent"
          "success").response) :=
  success_response_fields demoWorld demoRequest
    (AgentResponse.mk "B" "session-7" "greeting_agent" "success")
    ((run_agent demoWorld demoRequest).2) (by rfl)

end Gateway
